import Mathlib

set_option maxRecDepth 40000

/-!
Shallow embedding of `src/src/app/app.component.ts` (`AppComponent`).

The component owns three Angular signals (`progress`, `loading`,
`inAngularZone`) and one public operation `runOutsideAngular()`, which runs a
chunked work loop of `total = 3000` iterations outside the Angular zone,
re-entering the zone every 500 iterations (the checkpoint cadence) to publish
progress, and once more at completion.

Modelling choices:
* The three signals form `AppState`.  The loop counter `i` is a local variable
  of `runOutsideAngular`, threaded explicitly.
* The zone context (`NgZone.isInAngularZone()`) is `true` exactly inside an
  `ngZone.run` callback here, because the whole loop body runs inside
  `ngZone.runOutsideAngular`; the context is passed explicitly to `checkZone`.
* Every signal `set` call, every unit of work (`i++`), every `checkZone`
  query and every `ngZone.run` entry is recorded as an event (`Ev`), so the
  run produces a trace as well as a final state.
* Angular signals use referential equality by default: a `set` call whose
  value equals the current value does not notify consumers.  A *publication*
  of a signal is therefore a value-changing `set` (see `progressPubs`,
  `loadingPubs`); the raw `set` calls are also available (`progressSets`,
  `loadingSets`).
* The source contains no `try`/`catch`, so an exception thrown inside an
  `ngZone.run` callback propagates out of the loop uncaught.  The loop is
  embedded with an explicit fault channel `fault : Nat → Bool` saying whether
  the checkpoint callback at iteration `i` throws; the actual code, whose
  callbacks never throw, is the instance `fault = fun _ => false`
  (`runOutsideAngular`).
* `Math.round((i / total) * 100)` on these non-negative inputs is
  `⌊i·100/total + 1/2⌋`, i.e. `(200*i + total) / (2*total)` in `Nat`.
* `window.requestAnimationFrame(step)` defers the next iteration; one frame
  runs one `step`.  The driver `driveLoopF` plays the scheduled frames in
  order; `StepOutcome` records whether a next frame was scheduled, the run
  finished, or a callback threw.  The `setTimeout(() => {}, 300)` inside the
  checkpoint callback schedules a no-op and has no observable effect on the
  signals, so it is not given an event.
-/

/-- The component's three signals (`app.component.ts` lines 17, 23, 32).
`progress` is an integer percent, `loading` the running flag, `inAngularZone`
the last queried zone status.  Initial values: `0`, `false`, `true`. -/
structure AppState where
  progress : Nat
  loading : Bool
  inAngularZone : Bool
  deriving DecidableEq

/-- Primitive observable events of a run.  `iter` is the value of the loop
counter `i` when the event happens (`0` for the events preceding the first
`step()` call); `inCb` says whether the event happens inside an `ngZone.run`
callback.

* `work i`: the `i++` beginning the `i`-th unit of work;
* `checkZone i inCb z`: a `checkZone()` call recording zone status `z`;
* `setProgress i inCb v` / `setLoading i inCb b`: a signal `set` call;
* `zoneRun i completion`: an `ngZone.run(...)` entry — the periodic
  checkpoint callback (`completion = false`, lines 115-120) or the completion
  callback (`completion = true`, lines 128-133). -/
inductive Ev where
  | work (iter : Nat)
  | checkZone (iter : Nat) (inCb : Bool) (z : Bool)
  | setProgress (iter : Nat) (inCb : Bool) (v : Nat)
  | setLoading (iter : Nat) (inCb : Bool) (b : Bool)
  | zoneRun (iter : Nat) (completion : Bool)
  deriving DecidableEq

/-- How one invocation of the `step` closure ends: it scheduled the next
frame via `requestAnimationFrame` (`again`), it ran the completion callback
(`finished`), or an exception escaped a checkpoint callback (`threw`). -/
inductive StepOutcome where
  | again
  | finished
  | threw
  deriving DecidableEq

/-- `Math.round((i / total) * 100)` (line 114) for non-negative arguments:
round-half-up of `i·100/total`. -/
def roundPercent (i total : Nat) : Nat :=
  (200 * i + total) / (2 * total)

/-- `checkZone()` (lines 78-80): `this.inAngularZone.set(NgZone.isInAngularZone())`.
The current zone status is passed explicitly as `zone`. -/
def checkZone (zone : Bool) (s : AppState) : AppState :=
  { s with inAngularZone := zone }

/-- Lines 123-134 of `step`: after the optional checkpoint block, either
schedule the next frame (`i < total`) or run the completion callback, which
does `loading.set(false); progress.set(100); checkZone()` inside the zone. -/
def stepTail (total i : Nat) (s : AppState) (evs : List Ev) :
    AppState × List Ev × StepOutcome :=
  if i < total then
    (s, evs, StepOutcome.again)
  else
    (checkZone true { s with loading := false, progress := 100 },
     evs ++ [Ev.zoneRun i true, Ev.setLoading i true false,
             Ev.setProgress i true 100, Ev.checkZone i true true],
     StepOutcome.finished)

/-- One invocation of the `step` closure (lines 108-135), starting from loop
counter `iPrev`: `i++; checkZone();` then, every `cadence` iterations, the
checkpoint callback `progress.set(percent); checkZone(); setTimeout(noop)`
inside the zone (throwing instead when `fault i`), then `stepTail`.
An exception aborts the invocation before the scheduling/completion code. -/
def stepFnF (fault : Nat → Bool) (total cadence iPrev : Nat) (s : AppState) :
    AppState × List Ev × StepOutcome :=
  let i := iPrev + 1
  let s1 := checkZone false s
  let evs1 := [Ev.work i, Ev.checkZone i false false]
  if i % cadence = 0 then
    let percent := roundPercent i total
    if fault i then
      (s1, evs1 ++ [Ev.zoneRun i false], StepOutcome.threw)
    else
      stepTail total i (checkZone true { s1 with progress := percent })
        (evs1 ++ [Ev.zoneRun i false, Ev.setProgress i true percent,
                  Ev.checkZone i true true])
  else
    stepTail total i s1 evs1

/-- The `requestAnimationFrame` driver: plays successive `step` frames while
each one schedules another.  `fuel` bounds the number of frames played and is
always supplied large enough to reach `finished` or `threw`. -/
def driveLoopF (fault : Nat → Bool) (total cadence : Nat) :
    Nat → Nat → AppState → AppState × List Ev × StepOutcome
  | 0, _, s => (s, [], StepOutcome.again)
  | fuel + 1, iPrev, s =>
    match stepFnF fault total cadence iPrev s with
    | (s1, evs, StepOutcome.again) =>
      let r := driveLoopF fault total cadence fuel (iPrev + 1) s1
      (r.1, evs ++ r.2.1, r.2.2)
    | r => r

/-- The synchronous part of `runOutsideAngular()` (lines 93-100 and the direct
`step()` call on line 137): inside `ngZone.runOutsideAngular`, it does
`checkZone(); loading.set(true); progress.set(0)` and then runs the first
`step` before returning; later frames run asynchronously. -/
def runSyncF (fault : Nat → Bool) (total cadence : Nat) (s : AppState) :
    AppState × List Ev × StepOutcome :=
  let s0 := checkZone false s
  let s1 := { s0 with loading := true }
  let s2 := { s1 with progress := 0 }
  let pre := [Ev.checkZone 0 false false, Ev.setLoading 0 false true,
              Ev.setProgress 0 false 0]
  let r := stepFnF fault total cadence 0 s2
  (r.1, pre ++ r.2.1, r.2.2)

/-- A whole run of `runOutsideAngular()` with the fault channel: the
synchronous part followed by the frames scheduled through
`requestAnimationFrame`, until completion or an uncaught exception. -/
def runOutsideAngularF (fault : Nat → Bool) (total cadence : Nat)
    (s : AppState) : AppState × List Ev × StepOutcome :=
  match runSyncF fault total cadence s with
  | (s1, evs, StepOutcome.again) =>
    let r := driveLoopF fault total cadence (total - 1) 1 s1
    (r.1, evs ++ r.2.1, r.2.2)
  | r => r

/-- A whole run of `runOutsideAngular()` as written in the source: no
callback throws. -/
def runOutsideAngular (total cadence : Nat) (s : AppState) :
    AppState × List Ev :=
  let r := runOutsideAngularF (fun _ => false) total cadence s
  (r.1, r.2.1)

/-- Signal values after the component's constructor ran (`progress = 0`,
`loading = false`, and `inAngularZone = true`: the constructor's `checkZone()`
executes inside the Angular zone). -/
def initialState : AppState :=
  ⟨0, false, true⟩

/-- The iterations at which units of work were performed, in trace order. -/
def iterEvents (t : List Ev) : List Nat :=
  t.filterMap fun e =>
    match e with
    | Ev.work i => some i
    | _ => none

/-- All `progress.set` calls in a trace: `(iteration, inside-callback, value)`. -/
def progressSets (t : List Ev) : List (Nat × Bool × Nat) :=
  t.filterMap fun e =>
    match e with
    | Ev.setProgress i c v => some (i, c, v)
    | _ => none

/-- All `loading.set` calls in a trace: `(iteration, inside-callback, value)`. -/
def loadingSets (t : List Ev) : List (Nat × Bool × Bool) :=
  t.filterMap fun e =>
    match e with
    | Ev.setLoading i c b => some (i, c, b)
    | _ => none

/-- The publications of the `progress` signal: value-changing `set` calls,
starting from current value `cur` (Angular signals do not notify when set to
an equal value).  Each publication is `(iteration, value)`. -/
def progressPubs (cur : Nat) : List Ev → List (Nat × Nat)
  | [] => []
  | e :: rest =>
    match e with
    | Ev.setProgress i _ v =>
      if v = cur then progressPubs cur rest else (i, v) :: progressPubs v rest
    | _ => progressPubs cur rest

/-- The publications of the `loading` signal: value-changing `set` calls,
as `(iteration, inside-callback, value)`. -/
def loadingPubs (cur : Bool) : List Ev → List (Nat × Bool × Bool)
  | [] => []
  | e :: rest =>
    match e with
    | Ev.setLoading i c b =>
      if b = cur then loadingPubs cur rest else (i, c, b) :: loadingPubs b rest
    | _ => loadingPubs cur rest

/-- The `ngZone.run` entries of a trace: `(iteration, is-completion)`. -/
def zoneRuns (t : List Ev) : List (Nat × Bool) :=
  t.filterMap fun e =>
    match e with
    | Ev.zoneRun i c => some (i, c)
    | _ => none

/-- The iterations at which `ngZone.run` callbacks fired, in trace order. -/
def zoneRunIters (t : List Ev) : List Nat :=
  t.filterMap fun e =>
    match e with
    | Ev.zoneRun i _ => some i
    | _ => none

/-- Does `p` hold of every event of a trace?  (Structured as a direct tail
recursion so that long traces evaluate without deep nesting.) -/
def evsAll (p : Ev → Bool) : List Ev → Bool
  | [] => true
  | e :: t =>
    match p e with
    | true => evsAll p t
    | false => false

/-- Is every number of a list at most `bound`? -/
def allLe (bound : Nat) : List Nat → Bool
  | [] => true
  | k :: t =>
    match decide (k ≤ bound) with
    | true => allLe bound t
    | false => false

/-- Does every `checkZone` query of a trace record `true` exactly when it was
made inside an `ngZone.run` callback (and `false` between units of work)? -/
def zoneQueryConsistent (t : List Ev) : Bool :=
  evsAll
    (fun e =>
      match e with
      | Ev.checkZone _ inCb z => inCb == z
      | _ => true)
    t

/-- The outside-the-zone portion of a trace: units of work and the
`checkZone` queries made outside any `ngZone.run` callback. -/
def outsideSteps (t : List Ev) : List Ev :=
  t.filter fun e =>
    match e with
    | Ev.work _ => true
    | Ev.checkZone _ false _ => true
    | _ => false

/-- The iterations of the `checkZone` queries made inside `ngZone.run`
callbacks (recording zone status `true`), in trace order. -/
def insideQueries (t : List Ev) : List Nat :=
  t.filterMap fun e =>
    match e with
    | Ev.checkZone i true true => some i
    | _ => none

/-- Is a trace event, when it is a `progress.set` call, a legal checkpoint
publication: value `roundPercent` of its iteration, at most `100`, and made
either at a multiple of the cadence or at completion? -/
def checkpointPublication (total cadence : Nat) (e : Ev) : Bool :=
  match e with
  | Ev.setProgress i _ v =>
    decide (v = roundPercent i total) && decide (v ≤ 100) &&
      (decide (i % cadence = 0) || decide (i = total))
  | _ => true

/-- Is a list of percent values non-decreasing? -/
def nondec : List Nat → Bool
  | [] => true
  | [_] => true
  | a :: b :: t => decide (a ≤ b) && nondec (b :: t)

/-- Is a list of iteration numbers exactly `n, n + 1, ..., stop`? -/
def isIota (stop : Nat) : Nat → List Nat → Bool
  | n, [] => decide (n = stop + 1)
  | n, k :: t => decide (k = n) && isIota stop (n + 1) t

/-- Is a list of outside-the-zone events exactly, for each iteration
`n, ..., stop` in order, a unit of work immediately followed by a `checkZone`
query made outside the zone with result `false`? -/
def outsidePairs (stop : Nat) : Nat → List Ev → Bool
  | n, [] => decide (n = stop + 1)
  | n, Ev.work i :: Ev.checkZone j false false :: t =>
    decide (i = n) && decide (j = n) && outsidePairs stop (n + 1) t
  | _, _ => false

/-- Does the outside-the-zone portion of a trace consist exactly of the
initial `checkZone` query (result `false`) followed by, for each iteration
`1, ..., stop`, a unit of work immediately re-queried with result `false`? -/
def outsideStepsOk (stop : Nat) (t : List Ev) : Bool :=
  match outsideSteps t with
  | Ev.checkZone 0 false false :: rest => outsidePairs stop 1 rest
  | _ => false

/-- The synchronous part of a run does not depend on the incoming signal
values: `runOutsideAngular` overwrites all three signals before the loop. -/
theorem runSyncF_state_irrel (fault : Nat → Bool) (total cadence : Nat)
    (s s' : AppState) :
    runSyncF fault total cadence s = runSyncF fault total cadence s' := rfl

/-- A whole run does not depend on the incoming signal values. -/
theorem runOutsideAngularF_state_irrel (fault : Nat → Bool) (total cadence : Nat)
    (s s' : AppState) :
    runOutsideAngularF fault total cadence s =
      runOutsideAngularF fault total cadence s' := rfl

/-- A whole fault-free run does not depend on the incoming signal values. -/
theorem runOutsideAngular_state_irrel (total cadence : Nat) (s s' : AppState) :
    runOutsideAngular total cadence s = runOutsideAngular total cadence s' := rfl

/-- Soundness of the trace scanner: `evsAll p t = true` means `p` holds of
every event of `t`. -/
theorem evsAll_eq_true {p : Ev → Bool} :
    ∀ {t : List Ev}, evsAll p t = true → ∀ e ∈ t, p e = true := by
  intro t
  induction t with
  | nil =>
    intro _ e he
    simp at he
  | cons a t ih =>
    intro h e he
    have ha : p a = true := by
      cases hpa : p a
      · simp only [evsAll, hpa] at h
        exact h
      · rfl
    have ht : evsAll p t = true := by
      simp only [evsAll, ha] at h
      exact h
    rcases List.mem_cons.mp he with rfl | hm
    · exact ha
    · exact ih ht e hm

/-- Every publication of `progress` comes from some `progress.set` call in
the trace (with the same iteration and value). -/
theorem mem_progressPubs {t : List Ev} : ∀ {cur : Nat} {p : Nat × Nat},
    p ∈ progressPubs cur t → ∃ c, Ev.setProgress p.1 c p.2 ∈ t := by
  induction t with
  | nil =>
    intro cur p h
    simp [progressPubs] at h
  | cons e rest ih =>
    intro cur p h
    cases e with
    | setProgress i cb v =>
      simp only [progressPubs] at h
      by_cases hv : v = cur
      · rw [if_pos hv] at h
        obtain ⟨c, hc⟩ := ih h
        exact ⟨c, List.mem_cons_of_mem _ hc⟩
      · rw [if_neg hv] at h
        rcases List.mem_cons.mp h with heq | hmem
        · subst heq
          exact ⟨cb, List.mem_cons_self _ _⟩
        · obtain ⟨c, hc⟩ := ih hmem
          exact ⟨c, List.mem_cons_of_mem _ hc⟩
    | work i =>
      simp only [progressPubs] at h
      obtain ⟨c, hc⟩ := ih h
      exact ⟨c, List.mem_cons_of_mem _ hc⟩
    | checkZone i cb z =>
      simp only [progressPubs] at h
      obtain ⟨c, hc⟩ := ih h
      exact ⟨c, List.mem_cons_of_mem _ hc⟩
    | setLoading i cb b =>
      simp only [progressPubs] at h
      obtain ⟨c, hc⟩ := ih h
      exact ⟨c, List.mem_cons_of_mem _ hc⟩
    | zoneRun i cpl =>
      simp only [progressPubs] at h
      obtain ⟨c, hc⟩ := ih h
      exact ⟨c, List.mem_cons_of_mem _ hc⟩

/-- C1 (counterexample): the claim fails for a run that does not start with
`progress = 0`.  The state `⟨100, false, true⟩` is exactly the component state
left by a completed first run; a second run from it publishes `progress`
seven times, the reset to `0` included, not six. -/
theorem progress_pubs_second_run_seven :
    (runOutsideAngular 3000 500 initialState).1 = ⟨100, false, true⟩ ∧
    progressPubs 100 (runOutsideAngular 3000 500 (⟨100, false, true⟩ : AppState)).2 =
      [(0, 0), (500, 17), (1000, 33), (1500, 50), (2000, 67), (2500, 83),
       (3000, 100)] ∧
    (progressPubs 100
        (runOutsideAngular 3000 500 (⟨100, false, true⟩ : AppState)).2).length = 7 :=
  ⟨by decide, by decide, by decide⟩

/-- C1 (amended): every run with `total = 3000`, cadence `500` that starts
with the `progress` signal at `0` (in particular the first run) publishes
`progress` exactly 6 times, with values `17, 33, 50, 67, 83, 100` in
non-decreasing order, at iterations `500, 1000, ..., 3000`, each value being
`roundPercent` of its iteration.  (A `set` call that does not change the
signal's value, such as the completion callback's duplicate `set(100)`, does
not notify consumers and so is not a publication.) -/
theorem progress_pubs_fresh_run_six (s : AppState) (h : s.progress = 0) :
    progressPubs s.progress (runOutsideAngular 3000 500 s).2 =
      [(500, 17), (1000, 33), (1500, 50), (2000, 67), (2500, 83), (3000, 100)] ∧
    (progressPubs s.progress (runOutsideAngular 3000 500 s).2).length = 6 ∧
    (∀ p ∈ progressPubs s.progress (runOutsideAngular 3000 500 s).2,
        p.2 = roundPercent p.1 3000) ∧
    nondec ((progressPubs s.progress (runOutsideAngular 3000 500 s).2).map
      Prod.snd) = true := by
  rw [runOutsideAngular_state_irrel 3000 500 s initialState, h]
  exact ⟨by decide, by decide, by decide, by decide⟩

/-- Witness for C1 (amended) at the component's initial state. -/
theorem progress_pubs_fresh_run_six_w :
    progressPubs 0 (runOutsideAngular 3000 500 initialState).2 =
      [(500, 17), (1000, 33), (1500, 50), (2000, 67), (2500, 83), (3000, 100)] :=
  (progress_pubs_fresh_run_six initialState rfl).1

/-- C2: `runOutsideAngular()` has no guard against an already active run:
invoked in a state with `loading = true` (and `progress = 17`, as after the
first checkpoint of an active run), it does not fail — it runs to normal
completion — and its synchronous part already resets `progress` to `0`,
altering the active run's observable state. -/
theorem second_run_unguarded_restarts :
    AppState.loading ⟨17, true, false⟩ = true ∧
    (runOutsideAngularF (fun _ => false) 3000 500 ⟨17, true, false⟩).2.2 =
      StepOutcome.finished ∧
    (runSyncF (fun _ => false) 3000 500 ⟨17, true, false⟩).1.progress = 0 ∧
    AppState.progress ⟨17, true, false⟩ ≠ 0 :=
  ⟨rfl, by decide, by decide, by decide⟩

/-- C3: in the `total = 10`, cadence `5` scenario the checkpoints fire at
iterations 5 (publishing `progress = 50`) and 10 (publishing `progress = 100`
and setting `loading = false`), but the zone-entering callback at iteration 10
fires twice — the periodic checkpoint at `10 % 5 = 0` and the completion
callback both run — contradicting the claim's "no checkpoint fires twice at
iteration 10".  The source's own parameters (`total = 3000`, cadence `500`)
double-fire at iteration 3000 in the same way. -/
theorem final_iteration_double_zone_entry :
    zoneRuns (runOutsideAngular 10 5 initialState).2 =
      [(5, false), (10, false), (10, true)] ∧
    (zoneRunIters (runOutsideAngular 10 5 initialState).2).count 10 = 2 ∧
    progressPubs 0 (runOutsideAngular 10 5 initialState).2 = [(5, 50), (10, 100)] ∧
    loadingSets (runOutsideAngular 10 5 initialState).2 =
      [(0, false, true), (10, true, false)] ∧
    zoneRunIters (runOutsideAngular 3000 500 initialState).2 =
      [500, 1000, 1500, 2000, 2500, 3000, 3000] :=
  ⟨by decide, by decide, by decide, by decide, by decide⟩

/-- C4: in every run, the units of work are exactly iterations `1, ..., 3000`
(so `0 ≤ iteration ≤ total` after every step), and the `loading` flag is set
to `true` at the start of the run and back to `false` only inside the
completion callback of the step at which `iteration = total`, where the run
ends with `loading = false`. -/
theorem iteration_bounds_and_loading_flag (s : AppState) :
    isIota 3000 1 (iterEvents (runOutsideAngular 3000 500 s).2) = true ∧
    allLe 3000 (iterEvents (runOutsideAngular 3000 500 s).2) = true ∧
    loadingSets (runOutsideAngular 3000 500 s).2 =
      [(0, false, true), (3000, true, false)] ∧
    (runOutsideAngular 3000 500 s).1.loading = false := by
  rw [runOutsideAngular_state_irrel 3000 500 s initialState]
  exact ⟨by decide, by decide, by decide, rfl⟩

/-- C5: every publication of `progress` during a run is `roundPercent` of the
iteration at which it is published, lies in `[0, 100]`, and happens only at a
checkpoint (iteration a multiple of the cadence — the start-of-run reset has
iteration `0`) or at completion (`iteration = total`), never elsewhere. -/
theorem progress_publication_sound (s : AppState) (p : Nat × Nat)
    (hp : p ∈ progressPubs s.progress (runOutsideAngular 3000 500 s).2) :
    p.2 = roundPercent p.1 3000 ∧ p.2 ≤ 100 ∧ (p.1 % 500 = 0 ∨ p.1 = 3000) := by
  rw [runOutsideAngular_state_irrel 3000 500 s initialState] at hp
  obtain ⟨c, hmem⟩ := mem_progressPubs hp
  have hall : evsAll (checkpointPublication 3000 500)
      (runOutsideAngular 3000 500 initialState).2 = true := by decide
  have hgood := evsAll_eq_true hall _ hmem
  have hsplit : (p.2 = roundPercent p.1 3000 ∧ p.2 ≤ 100) ∧
      (p.1 % 500 = 0 ∨ p.1 = 3000) := by
    simpa [checkpointPublication, Bool.and_eq_true, Bool.or_eq_true,
      decide_eq_true_eq] using hgood
  exact ⟨hsplit.1.1, hsplit.1.2, hsplit.2⟩

/-- Witness for C5 at the initial state and the first checkpoint. -/
theorem progress_publication_sound_w :
    (17 : Nat) = roundPercent 500 3000 ∧ (17 : Nat) ≤ 100 ∧
      ((500 : Nat) % 500 = 0 ∨ (500 : Nat) = 3000) :=
  progress_publication_sound initialState (500, 17) (by decide)

/-- C6: in every run started while no run is active (`loading = false`), the
`loading` signal is toggled exactly once to `true` — by the synchronous start
of the run, at iteration 0, outside the zone — and exactly once back to
`false` — inside the completion callback at iteration 3000 — and these are
also the only two `loading.set` calls of the whole run. -/
theorem loading_toggles_once (s : AppState) (h : s.loading = false) :
    loadingPubs s.loading (runOutsideAngular 3000 500 s).2 =
      [(0, false, true), (3000, true, false)] ∧
    loadingSets (runOutsideAngular 3000 500 s).2 =
      [(0, false, true), (3000, true, false)] := by
  rw [runOutsideAngular_state_irrel 3000 500 s initialState, h]
  exact ⟨by decide, by decide⟩

/-- Witness for C6 at the component's initial state. -/
theorem loading_toggles_once_w :
    loadingPubs false (runOutsideAngular 3000 500 initialState).2 =
      [(0, false, true), (3000, true, false)] :=
  (loading_toggles_once initialState rfl).1

/-- C7: if the checkpoint callback at iteration `k` throws (for any checkpoint
`k` of the run — the source has no handler, so the exception propagates out of
`step`), the loop terminates at iteration `k`: no unit of work beyond `k`
executes, the exception reaches the top uncaught, and the `loading` flag is
left `true` (the completion callback never runs). -/
theorem checkpoint_exception_stalls_run (s : AppState) (k : Nat)
    (hk : k ∈ [500, 1000, 1500, 2000, 2500, 3000]) :
    (runOutsideAngularF (fun j => decide (j = k)) 3000 500 s).2.2 =
      StepOutcome.threw ∧
    (runOutsideAngularF (fun j => decide (j = k)) 3000 500 s).1.loading = true ∧
    isIota k 1
      (iterEvents (runOutsideAngularF (fun j => decide (j = k)) 3000 500 s).2.1) =
      true := by
  rw [runOutsideAngularF_state_irrel (fun j => decide (j = k)) 3000 500 s
    initialState]
  simp only [List.mem_cons, List.not_mem_nil, or_false] at hk
  rcases hk with rfl | rfl | rfl | rfl | rfl | rfl <;>
    exact ⟨by decide, by decide, by decide⟩

/-- Witness for C7: a throw at the first checkpoint. -/
theorem checkpoint_exception_stalls_run_w :
    (runOutsideAngularF (fun j => decide (j = 500)) 3000 500 initialState).2.2 =
      StepOutcome.threw ∧
    (runOutsideAngularF (fun j => decide (j = 500)) 3000 500
        initialState).1.loading = true ∧
    isIota 500 1
      (iterEvents (runOutsideAngularF (fun j => decide (j = 500)) 3000 500
        initialState).2.1) = true :=
  checkpoint_exception_stalls_run initialState 500 (by decide)

/-- C8: in every run, each `checkZone` query records `true` exactly when made
inside an `ngZone.run` callback; outside the zone the trace is exactly the
initial query followed by, for each iteration `1, ..., 3000`, a unit of work
immediately re-queried with result `false`; and the `checkZone` queries made
inside the zone correspond one to one, in order and at the same iterations,
to the `ngZone.run` callbacks — every checkpoint or completion callback
re-queries the zone status (with result `true`). -/
theorem zone_status_requeried (s : AppState) :
    zoneQueryConsistent (runOutsideAngular 3000 500 s).2 = true ∧
    outsideStepsOk 3000 (runOutsideAngular 3000 500 s).2 = true ∧
    insideQueries (runOutsideAngular 3000 500 s).2 =
      zoneRunIters (runOutsideAngular 3000 500 s).2 ∧
    zoneRunIters (runOutsideAngular 3000 500 s).2 =
      [500, 1000, 1500, 2000, 2500, 3000, 3000] := by
  rw [runOutsideAngular_state_irrel 3000 500 s initialState]
  exact ⟨by decide, by decide, by decide, by decide⟩

/-- C9: `checkZone` writes only the `inAngularZone` signal: for every zone
status and state it leaves `progress` and `loading` (and, having no access to
it, the local iteration counter) unchanged. -/
theorem checkZone_frame (zone : Bool) (s : AppState) :
    (checkZone zone s).progress = s.progress ∧
    (checkZone zone s).loading = s.loading ∧
    (checkZone zone s).inAngularZone = zone :=
  ⟨rfl, rfl, rfl⟩

/-- C10: the synchronous part of `runOutsideAngular()` — what runs before the
call returns — leaves the signals at `progress = 0`, `loading = true`,
`inAngularZone = false`; its trace records the `loading := true` and
`progress := 0` writes and exactly the first unit of work (iteration 1); and
the loop continues only through a scheduled animation frame. -/
theorem run_sync_first_step (s : AppState) :
    (runSyncF (fun _ => false) 3000 500 s).1 = ⟨0, true, false⟩ ∧
    Ev.setLoading 0 false true ∈ (runSyncF (fun _ => false) 3000 500 s).2.1 ∧
    Ev.setProgress 0 false 0 ∈ (runSyncF (fun _ => false) 3000 500 s).2.1 ∧
    iterEvents (runSyncF (fun _ => false) 3000 500 s).2.1 = [1] ∧
    (runSyncF (fun _ => false) 3000 500 s).2.2 = StepOutcome.again := by
  rw [runSyncF_state_irrel (fun _ => false) 3000 500 s initialState]
  exact ⟨rfl, by decide, by decide, rfl, rfl⟩

/-- Witness for C4 at the component's initial state. -/
theorem iteration_bounds_and_loading_flag_w :
    isIota 3000 1 (iterEvents (runOutsideAngular 3000 500 initialState).2) = true ∧
    allLe 3000 (iterEvents (runOutsideAngular 3000 500 initialState).2) = true ∧
    loadingSets (runOutsideAngular 3000 500 initialState).2 =
      [(0, false, true), (3000, true, false)] ∧
    (runOutsideAngular 3000 500 initialState).1.loading = false :=
  iteration_bounds_and_loading_flag initialState

/-- Witness for C8 at the component's initial state. -/
theorem zone_status_requeried_w :
    zoneQueryConsistent (runOutsideAngular 3000 500 initialState).2 = true ∧
    outsideStepsOk 3000 (runOutsideAngular 3000 500 initialState).2 = true ∧
    insideQueries (runOutsideAngular 3000 500 initialState).2 =
      zoneRunIters (runOutsideAngular 3000 500 initialState).2 ∧
    zoneRunIters (runOutsideAngular 3000 500 initialState).2 =
      [500, 1000, 1500, 2000, 2500, 3000, 3000] :=
  zone_status_requeried initialState

/-- Witness for C9 at the zone flag `true` and the initial state. -/
theorem checkZone_frame_w :
    (checkZone true initialState).progress = initialState.progress ∧
    (checkZone true initialState).loading = initialState.loading ∧
    (checkZone true initialState).inAngularZone = true :=
  checkZone_frame true initialState

/-- Witness for C10 at the component's initial state. -/
theorem run_sync_first_step_w :
    (runSyncF (fun _ => false) 3000 500 initialState).1 = ⟨0, true, false⟩ ∧
    Ev.setLoading 0 false true ∈
      (runSyncF (fun _ => false) 3000 500 initialState).2.1 ∧
    Ev.setProgress 0 false 0 ∈
      (runSyncF (fun _ => false) 3000 500 initialState).2.1 ∧
    iterEvents (runSyncF (fun _ => false) 3000 500 initialState).2.1 = [1] ∧
    (runSyncF (fun _ => false) 3000 500 initialState).2.2 = StepOutcome.again :=
  run_sync_first_step initialState
